import Mathlib

/-!
Verification of the conversational CRM bot
(`crm_system/core/management/commands/bot.py` together with the Django
models in `crm_system/core/models.py`).

The development shallowly embeds the stepped-form conversation handlers of
the Telegram bot: each `async def` handler of the `Command` class becomes a
pure Lean function from the incoming message text, the per-user collected
data (`context.user_data`) and the ledger store to a turn result (replies,
next conversation state, new user data, new store).  Python `float`/`int`
parsing and `datetime.strptime('%d.%m.%Y')` are embedded as executable
parsers over decimal strings; monetary values are modelled as exact
rationals.
-/

namespace CRMBot

/-! ## Input parsers

`float(text)` / `int(text)` as used by the handlers, restricted to the
sign + digits (+ optional fractional part) forms; Python's exotic float
spellings (exponents, `inf`, `nan`, underscores) are outside the inputs the
bot's prompts ask for and are not modelled. -/

def digitsToNat (l : List Char) : Nat :=
  l.foldl (fun a c => a * 10 + (c.toNat - 48)) 0

/-- The unsigned part of Python `float`: digits with an optional single
dot and at least one digit overall. -/
def parseUnsignedFloat (cs : List Char) : Option Rat :=
  let ip := cs.takeWhile Char.isDigit
  let rest := cs.drop ip.length
  match rest with
  | [] => if ip.isEmpty then none else some (mkRat (digitsToNat ip) 1)
  | '.' :: fp =>
      if fp.all Char.isDigit && (!ip.isEmpty || !fp.isEmpty) then
        some (mkRat (digitsToNat ip * 10 ^ fp.length + digitsToNat fp) (10 ^ fp.length))
      else none
  | _ => none

/-- Leading/trailing whitespace stripping (Python's `float`/`int` accept
surrounding whitespace). -/
def stripSpaces (l : List Char) : List Char :=
  ((l.dropWhile Char.isWhitespace).reverse.dropWhile Char.isWhitespace).reverse

/-- Embedding of Python `float(text)` (success/failure and value) for the
decimal inputs of the bot; `None` plays the role of `ValueError`. -/
def parseFloat (s : String) : Option Rat :=
  match stripSpaces s.data with
  | '-' :: cs => (parseUnsignedFloat cs).map (fun q => -q)
  | '+' :: cs => parseUnsignedFloat cs
  | cs => parseUnsignedFloat cs

/-- Embedding of Python `int(text)`: optional sign, then digits. -/
def parseInt (s : String) : Option Int :=
  let core : List Char → Option Nat := fun cs =>
    if !cs.isEmpty && cs.all Char.isDigit then some (digitsToNat cs) else none
  match stripSpaces s.data with
  | '-' :: cs => (core cs).map (fun n => -(n : Int))
  | '+' :: cs => (core cs).map (fun n => (n : Int))
  | cs => (core cs).map (fun n => (n : Int))

/-- A calendar date as produced by `datetime.strptime(text, '%d.%m.%Y').date()`. -/
structure Date where
  year : Nat
  month : Nat
  day : Nat
deriving DecidableEq, Repr

def isLeap (y : Nat) : Bool :=
  y % 4 = 0 && (y % 100 ≠ 0 || y % 400 = 0)

def daysInMonth (y m : Nat) : Nat :=
  if m = 2 then (if isLeap y then 29 else 28)
  else if m = 4 || m = 6 || m = 9 || m = 11 then 30
  else 31

/-- Embedding of `datetime.strptime(text, '%d.%m.%Y').date()`:
day `.` month `.` year with 1–2 digits for `%d` and `%m` and exactly 4
digits for `%Y` (CPython rejects shorter years), forming a real calendar
date (month 1–12, day within the month, year ≥ 1); `None` models
`ValueError`. -/
def parseDate (s : String) : Option Date :=
  match s.data.splitOn '.' with
  | [ds, ms, ys] =>
      if !ds.isEmpty && ds.all Char.isDigit && ds.length ≤ 2 &&
         !ms.isEmpty && ms.all Char.isDigit && ms.length ≤ 2 &&
         ys.all Char.isDigit && ys.length = 4 then
        let d := digitsToNat ds
        let m := digitsToNat ms
        let y := digitsToNat ys
        if 1 ≤ y && 1 ≤ m && m ≤ 12 && 1 ≤ d && d ≤ daysInMonth y m then
          some ⟨y, m, d⟩
        else none
      else none
  | _ => none

/-- Strict chronological order on dates ("strictly before the current
date", the comparison the spec's `PastDate` rule speaks about). -/
def Date.isBefore (a b : Date) : Bool :=
  a.year < b.year ||
  (a.year = b.year && (a.month < b.month ||
    (a.month = b.month && a.day < b.day)))

/-- Embedding of Python `str.lower()` for the alphabets the bot's button
texts use: ASCII `A`–`Z` and Cyrillic `А`–`Я`/`Ё`. -/
def pyLowerChar (c : Char) : Char :=
  if 'A' ≤ c && c ≤ 'Z' then Char.ofNat (c.toNat + 32)
  else if 0x410 ≤ c.toNat && c.toNat ≤ 0x42F then Char.ofNat (c.toNat + 32)
  else if c.toNat = 0x401 then Char.ofNat 0x451
  else c

def pyLower (s : String) : String :=
  ⟨s.data.map pyLowerChar⟩

/-! ## Data model (`core/models.py`) and ledger store -/

/-- `core.models.Client`: `name` (no uniqueness constraint), `contacts`,
`notes` (blank allowed).  `id` is the auto primary key. -/
structure Client where
  id : Nat
  name : String
  contacts : String
  notes : String
deriving DecidableEq, Repr

/-- `Order.STATUS_CHOICES`: `unpaid` / `paid` / `completed`
(default `unpaid`). -/
inductive OrderStatus
  | unpaid
  | paid
  | completed
deriving DecidableEq, Repr

/-- `core.models.Order`: name, client foreign key (the bot stores the whole
client object in `user_data`, so we inline it), decimal cost, deadline
date, status. -/
structure Order where
  id : Nat
  name : String
  client : Client
  cost : Rat
  deadline : Date
  status : OrderStatus
deriving DecidableEq, Repr

/-- `core.models.Expense`: comment and decimal cost. -/
structure Expense where
  id : Nat
  comment : String
  cost : Rat
deriving DecidableEq, Repr

/-- The relational store behind the Django ORM calls the bot makes: the
three tables in insertion (primary-key) order together with the next
auto-generated ids. -/
structure Store where
  clients : List Client
  orders : List Order
  expenses : List Expense
  nextClientId : Nat
  nextOrderId : Nat
  nextExpenseId : Nat
deriving DecidableEq, Repr

def store0 : Store := ⟨[], [], [], 1, 1, 1⟩

/-- `create_client` (bot.py 347–357): `Client.objects.create(...)`.
`Client.name` carries no `unique=True` in `models.py`, and every column the
call supplies is non-null, so the `IntegrityError` branch of the source can
never fire: the returned option is always `some`. -/
def Store.create_client (st : Store) (name contacts notes : String) :
    Option Client × Store :=
  let c : Client := ⟨st.nextClientId, name, contacts, notes⟩
  (some c, { st with clients := st.clients ++ [c],
                     nextClientId := st.nextClientId + 1 })

/-- `create_order` (bot.py 359–370): `Order.objects.create(...)` inside a
`try/except Exception` that returns `None` on a database error.  `dbOk`
is that external database outcome; status defaults to `unpaid`. -/
def Store.create_order (st : Store) (dbOk : Bool) (name : String)
    (client : Client) (cost : Rat) (deadline : Date) :
    Option Order × Store :=
  if dbOk then
    let o : Order := ⟨st.nextOrderId, name, client, cost, deadline, .unpaid⟩
    (some o, { st with orders := st.orders ++ [o],
                       nextOrderId := st.nextOrderId + 1 })
  else (none, st)

/-- `create_expense` (bot.py 372–381), with the same external database
outcome parameter as `create_order`. -/
def Store.create_expense (st : Store) (dbOk : Bool) (comment : String)
    (cost : Rat) : Option Expense × Store :=
  if dbOk then
    let e : Expense := ⟨st.nextExpenseId, comment, cost⟩
    (some e, { st with expenses := st.expenses ++ [e],
                       nextExpenseId := st.nextExpenseId + 1 })
  else (none, st)

/-- `get_client_by_name` (bot.py 383–391): `Client.objects.get(name=...)`;
`DoesNotExist` gives `None`, `MultipleObjectsReturned` falls back to
`filter(name=...).first()`, i.e. the first match in default (primary-key)
order. -/
def Store.get_client_by_name (st : Store) (name : String) : Option Client :=
  match st.clients.filter (fun c => c.name = name) with
  | [] => none
  | [c] => some c
  | c :: _ :: _ => some c

/-- `update_order_status` (bot.py 417–428): look the order up by id and
overwrite its status unconditionally; `(False, None)` on `DoesNotExist` is
the `none` result. -/
def Store.update_order_status (st : Store) (oid : Int) (status : OrderStatus) :
    Option Order × Store :=
  match st.orders.find? (fun o => (o.id : Int) = oid) with
  | none => (none, st)
  | some o =>
      let o2 := { o with status := status }
      (some o2,
       { st with orders := st.orders.map (fun x => if (x.id : Int) = oid then o2 else x) })

/-! ## Conversation states, button texts, user data -/

/-- The `State` enum of bot.py (ConversationHandler states). -/
inductive BotState
  | MAIN_MENU
  | CLIENTS_MENU
  | ORDERS_MENU
  | OPERATIONS_MENU
  | AWAITING_CLIENT_NAME
  | AWAITING_CLIENT_CONTACTS
  | AWAITING_CLIENT_NOTES
  | AWAITING_ORDER_NAME
  | AWAITING_ORDER_CLIENT
  | AWAITING_ORDER_COST
  | AWAITING_ORDER_DEADLINE
  | AWAITING_INCOME_ORDER
  | AWAITING_EXPENSE_COMMENT
  | AWAITING_EXPENSE_COST
  | AWAITING_COMPLETE_ORDER
deriving DecidableEq, Repr

/-! The `ButtonText` constants of bot.py (lines 47–62). -/

namespace ButtonText

def CLIENTS : String := "👥 Клиенты"

def ORDERS : String := "📋 Сделки"

def OPERATIONS : String := "💼 Операции"

def STATS : String := "📊 Статистика"

def ADD_CLIENT : String := "➕ Добавить клиента"

def LIST_CLIENTS : String := "📋 Список клиентов"

def BACK : String := "🔙 Назад"

def ADD_ORDER : String := "➕ Добавить сделку"

def ACTIVE_ORDERS : String := "📈 Активные сделки"

def ARCHIVED_ORDERS : String := "📁 Архив сделок"

def COMPLETE_ORDER : String := "✅ Завершить сделку"

def ADD_INCOME : String := "💰 Добавить доход"

def ADD_EXPENSE : String := "💸 Добавить расход"

def OPERATIONS_HISTORY : String := "📋 История операций"

def SKIP : String := "пропустить"

end ButtonText

/-! Menu texts emitted by `show_main_menu` / `show_clients_menu` /
`show_orders_menu` / `show_operations_menu`. -/

namespace Msg

def mainMenu : String := "🏠 Главное меню\nВыберите раздел:"

def clientsMenu : String := "👥 Управление клиентами\nВыберите действие:"

def ordersMenu : String := "📋 Управление сделками\nВыберите действие:"

def operationsMenu : String := "💼 Финансовые операции\nВыберите действие:"

end Msg

/-- `context.user_data`: the keys the bot ever writes, each optional
(absent until the corresponding step stores it).  `clear()` resets every
key to `none`. -/
structure UserData where
  client_name : Option String := none
  client_contacts : Option String := none
  client_notes : Option String := none
  order_name : Option String := none
  order_client : Option Client := none
  order_cost : Option Rat := none
  expense_comment : Option String := none
deriving DecidableEq, Repr

def UserData.empty : UserData := {}

/-- What one handler invocation produces: the texts replied (in order),
the conversation state it returns, the user data and the store afterwards. -/
structure TurnResult where
  replies : List String
  state : BotState
  userData : UserData
  store : Store
deriving DecidableEq, Repr

/-- A handler either finishes normally or raises `KeyError` (a required
`user_data` key is missing — uncaught in the source, the update dies in
the error handler). -/
inductive Turn
  | ok (r : TurnResult)
  | keyError
deriving DecidableEq, Repr

/-! ## Handlers (bot.py) -/

/-- `cancel` (bot.py 160–169): the `/cancel` fallback, registered in every
state; replies, clears `user_data`, shows the main menu. -/
def cancel (_s : BotState) (_ud : UserData) (st : Store) : Turn :=
  .ok ⟨["Операция отменена.", Msg.mainMenu], .MAIN_MENU, UserData.empty, st⟩

/-- `list_clients` response text (bot.py 519–539); message chunking at
4096 characters is transport glue and not modelled. -/
def list_clients_response (clients : List Client) : String :=
  if clients.isEmpty then "📝 Клиентов пока нет."
  else "📋 Список клиентов:\n\n" ++
    String.join (clients.map (fun c =>
      "● " ++ c.name ++ " - " ++ c.contacts ++ "\n" ++
      (if c.notes ≠ "" then "  Примечание: " ++ c.notes ++ "\n" else "") ++ "\n"))

/-- `handle_clients_menu` (bot.py 192–211). -/
def handle_clients_menu (text : String) (ud : UserData) (st : Store) : Turn :=
  if text = ButtonText.ADD_CLIENT then
    .ok ⟨["Введите имя клиента:"], .AWAITING_CLIENT_NAME, ud, st⟩
  else if text = ButtonText.LIST_CLIENTS then
    .ok ⟨[list_clients_response st.clients, Msg.clientsMenu], .CLIENTS_MENU, ud, st⟩
  else if text = ButtonText.BACK then
    .ok ⟨[Msg.mainMenu], .MAIN_MENU, ud, st⟩
  else
    .ok ⟨["Пожалуйста, выберите один из вариантов меню:", Msg.clientsMenu],
         .CLIENTS_MENU, ud, st⟩

/-- `get_client_name` (bot.py 472–480): step 0 of the client form. -/
def get_client_name (text : String) (ud : UserData) (st : Store) : Turn :=
  if text = ButtonText.BACK then
    .ok ⟨[Msg.clientsMenu], .CLIENTS_MENU, ud, st⟩
  else
    .ok ⟨["Введите контакты клиента:"], .AWAITING_CLIENT_CONTACTS,
         { ud with client_name := some text }, st⟩

/-- `get_client_contacts` (bot.py 482–490): step 1 of the client form. -/
def get_client_contacts (text : String) (ud : UserData) (st : Store) : Turn :=
  if text = ButtonText.BACK then
    .ok ⟨[Msg.clientsMenu], .CLIENTS_MENU, ud, st⟩
  else
    .ok ⟨["Введите примечание (или 'пропустить' чтобы пропустить):"],
         .AWAITING_CLIENT_NOTES, { ud with client_contacts := some text }, st⟩

/-- `get_client_notes` (bot.py 492–517): final step of the client form —
stores the notes (empty when the lower-cased text equals the skip token),
calls `create_client`, reports the outcome, clears `user_data`, returns to
the clients menu. -/
def get_client_notes (text : String) (ud : UserData) (st : Store) : Turn :=
  if text = ButtonText.BACK then
    .ok ⟨[Msg.clientsMenu], .CLIENTS_MENU, ud, st⟩
  else
    let ud1 :=
      if pyLower text ≠ ButtonText.SKIP then { ud with client_notes := some text }
      else { ud with client_notes := some "" }
    match ud1.client_name, ud1.client_contacts with
    | some nm, some ct =>
        let (copt, st2) := st.create_client nm ct (ud1.client_notes.getD "")
        let msg :=
          match copt with
          | some _ => "✅ Клиент успешно добавлен!"
          | none => "❌ Ошибка при добавлении клиента. Возможно, клиент с таким именем уже существует."
        .ok ⟨[msg, Msg.clientsMenu], .CLIENTS_MENU, UserData.empty, st2⟩
    | _, _ => .keyError

/-- `get_order_name` (bot.py 542–563): step 0 of the order form; note the
source stores `order_name` before checking for an empty client list, so the
key is retained even on the early exit to the orders menu. -/
def get_order_name (text : String) (ud : UserData) (st : Store) : Turn :=
  if text = ButtonText.BACK then
    .ok ⟨[Msg.ordersMenu], .ORDERS_MENU, ud, st⟩
  else
    let ud1 := { ud with order_name := some text }
    if st.clients.isEmpty then
      .ok ⟨["❌ Нет клиентов. Сначала добавьте клиента.", Msg.ordersMenu],
           .ORDERS_MENU, ud1, st⟩
    else
      .ok ⟨["Выберите клиента из списка:"], .AWAITING_ORDER_CLIENT, ud1, st⟩

/-- `get_order_client` (bot.py 610–627): resolves the client by exact
name; re-prompts the same step when the lookup finds nothing. -/
def get_order_client (text : String) (ud : UserData) (st : Store) : Turn :=
  if text = ButtonText.BACK then
    .ok ⟨[Msg.ordersMenu], .ORDERS_MENU, ud, st⟩
  else
    match st.get_client_by_name text with
    | some c =>
        .ok ⟨["Введите стоимость сделки (только число):"], .AWAITING_ORDER_COST,
             { ud with order_client := some c }, st⟩
    | none =>
        .ok ⟨["❌ Клиент не найден. Попробуйте еще раз:"], .AWAITING_ORDER_CLIENT, ud, st⟩

/-- `get_order_cost` (bot.py 629–657): `float(text)`; any parsed value is
stored (the source has no sign check), `ValueError` re-prompts.  The date
suggestion keyboard built from `datetime.date.today()` is reply markup
only and not part of the state. -/
def get_order_cost (text : String) (ud : UserData) (st : Store) : Turn :=
  if text = ButtonText.BACK then
    .ok ⟨[Msg.ordersMenu], .ORDERS_MENU, ud, st⟩
  else
    match parseFloat text with
    | some cost =>
        .ok ⟨["Выберите дату исполнения или введите свою (ДД.ММ.ГГГГ):"],
             .AWAITING_ORDER_DEADLINE, { ud with order_cost := some cost }, st⟩
    | none =>
        .ok ⟨["❌ Неверный формат стоимости. Введите число:"],
             .AWAITING_ORDER_COST, ud, st⟩

/-- `get_order_deadline` (bot.py 659–686): final step of the order form —
`strptime('%d.%m.%Y')` (no comparison against today in the source), then
`create_order`, report, clear, orders menu. -/
def get_order_deadline (dbOk : Bool) (text : String) (ud : UserData) (st : Store) : Turn :=
  if text = ButtonText.BACK then
    .ok ⟨[Msg.ordersMenu], .ORDERS_MENU, ud, st⟩
  else
    match parseDate text with
    | none =>
        .ok ⟨["❌ Неверный формат даты. Используйте ДД.ММ.ГГГГ:"],
             .AWAITING_ORDER_DEADLINE, ud, st⟩
    | some deadline =>
        match ud.order_name, ud.order_client, ud.order_cost with
        | some nm, some cl, some cost =>
            let (opt, st2) := st.create_order dbOk nm cl cost deadline
            let msg :=
              match opt with
              | some _ => "✅ Сделка успешно создана!"
              | none => "❌ Ошибка при создании сделки."
            .ok ⟨[msg, Msg.ordersMenu], .ORDERS_MENU, UserData.empty, st2⟩
        | _, _, _ => .keyError

/-- `process_income` (bot.py 771–796): parses an order id and sets that
order's status to `paid` via `update_order_status`, whatever its current
status; `user_data` is never touched here. -/
def process_income (text : String) (ud : UserData) (st : Store) : Turn :=
  if text = ButtonText.BACK then
    .ok ⟨[Msg.operationsMenu], .OPERATIONS_MENU, ud, st⟩
  else
    match parseInt text with
    | none =>
        .ok ⟨["❌ Неверный формат ID. Введите число:"], .AWAITING_INCOME_ORDER, ud, st⟩
    | some oid =>
        let (opt, st2) := st.update_order_status oid .paid
        let msg :=
          match opt with
          | some o =>
              "✅ Оплата учтена! Сделка '" ++ o.name ++ "' (" ++
              o.client.name ++ ") перемещена в оплаченные."
          | none => "❌ Неверный ID сделки или сделка уже оплачена."
        .ok ⟨[msg, Msg.operationsMenu], .OPERATIONS_MENU, ud, st2⟩

/-- `process_complete_order` (bot.py 583–608): parses an order id and sets
that order's status to `completed` unconditionally. -/
def process_complete_order (text : String) (ud : UserData) (st : Store) : Turn :=
  if text = ButtonText.BACK then
    .ok ⟨[Msg.ordersMenu], .ORDERS_MENU, ud, st⟩
  else
    match parseInt text with
    | none =>
        .ok ⟨["❌ Неверный формат ID. Введите число:"], .AWAITING_COMPLETE_ORDER, ud, st⟩
    | some oid =>
        let (opt, st2) := st.update_order_status oid .completed
        let msg :=
          match opt with
          | some o =>
              "✅ Сделка '" ++ o.name ++ "' (" ++ o.client.name ++
              ") успешно завершена и перемещена в архив."
          | none => "❌ Неверный ID сделки или сделка уже завершена."
        .ok ⟨[msg, Msg.ordersMenu], .ORDERS_MENU, ud, st2⟩

/-- `get_expense_comment` (bot.py 798–806): step 0 of the expense form. -/
def get_expense_comment (text : String) (ud : UserData) (st : Store) : Turn :=
  if text = ButtonText.BACK then
    .ok ⟨[Msg.operationsMenu], .OPERATIONS_MENU, ud, st⟩
  else
    .ok ⟨["Введите сумму расхода (только число):"], .AWAITING_EXPENSE_COST,
         { ud with expense_comment := some text }, st⟩

/-- `get_expense_cost` (bot.py 808–833): final step of the expense form —
`float(text)` with no sign check, then `create_expense`, report, clear,
operations menu. -/
def get_expense_cost (dbOk : Bool) (text : String) (ud : UserData) (st : Store) : Turn :=
  if text = ButtonText.BACK then
    .ok ⟨[Msg.operationsMenu], .OPERATIONS_MENU, ud, st⟩
  else
    match parseFloat text with
    | none =>
        .ok ⟨["❌ Неверный формат суммы. Введите число:"],
             .AWAITING_EXPENSE_COST, ud, st⟩
    | some cost =>
        match ud.expense_comment with
        | some cm =>
            let (opt, st2) := st.create_expense dbOk cm cost
            let msg :=
              match opt with
              | some _ => "✅ Расход успешно добавлен!"
              | none => "❌ Ошибка при добавлении расхода."
            .ok ⟨[msg, Msg.operationsMenu], .OPERATIONS_MENU, UserData.empty, st2⟩
        | none => .keyError

/-! ## Dispatch and multi-turn driving -/

/-- The `ConversationHandler` dispatch for the stepped-form states of the
bot (plus the clients menu, through which the client form is entered).
`none` marks the menu/display states outside the embedded fragment. -/
def runTurn (dbOk : Bool) (s : BotState) (text : String) (ud : UserData)
    (st : Store) : Option Turn :=
  match s with
  | .CLIENTS_MENU => some (handle_clients_menu text ud st)
  | .AWAITING_CLIENT_NAME => some (get_client_name text ud st)
  | .AWAITING_CLIENT_CONTACTS => some (get_client_contacts text ud st)
  | .AWAITING_CLIENT_NOTES => some (get_client_notes text ud st)
  | .AWAITING_ORDER_NAME => some (get_order_name text ud st)
  | .AWAITING_ORDER_CLIENT => some (get_order_client text ud st)
  | .AWAITING_ORDER_COST => some (get_order_cost text ud st)
  | .AWAITING_ORDER_DEADLINE => some (get_order_deadline dbOk text ud st)
  | .AWAITING_INCOME_ORDER => some (process_income text ud st)
  | .AWAITING_EXPENSE_COMMENT => some (get_expense_comment text ud st)
  | .AWAITING_EXPENSE_COST => some (get_expense_cost dbOk text ud st)
  | .AWAITING_COMPLETE_ORDER => some (process_complete_order text ud st)
  | _ => none

/-- Feed a sequence of user inputs through `runTurn`, tracking state, user
data and store; `none` when a turn raised or left the embedded fragment. -/
def runInputs (dbOk : Bool) :
    List String → BotState × UserData × Store → Option (BotState × UserData × Store)
  | [], cfg => some cfg
  | t :: ts, (s, ud, st) =>
      match runTurn dbOk s t ud st with
      | some (.ok r) => runInputs dbOk ts (r.state, r.userData, r.store)
      | _ => none

/-! ## Derived notions used by the statements -/

/-- The form-field states of the conversation (the `AwaitingField(i)`
states of the spec's state machine). -/
def isAwaitingField : BotState → Bool
  | .AWAITING_CLIENT_NAME | .AWAITING_CLIENT_CONTACTS | .AWAITING_CLIENT_NOTES
  | .AWAITING_ORDER_NAME | .AWAITING_ORDER_CLIENT | .AWAITING_ORDER_COST
  | .AWAITING_ORDER_DEADLINE | .AWAITING_INCOME_ORDER | .AWAITING_EXPENSE_COMMENT
  | .AWAITING_EXPENSE_COST | .AWAITING_COMPLETE_ORDER => true
  | _ => false

/-- The menu state each form-field handler returns to on the back-input
(read off the `ButtonText.BACK` branch of each handler). -/
def parentMenu : BotState → BotState
  | .AWAITING_CLIENT_NAME | .AWAITING_CLIENT_CONTACTS | .AWAITING_CLIENT_NOTES =>
      .CLIENTS_MENU
  | .AWAITING_ORDER_NAME | .AWAITING_ORDER_CLIENT | .AWAITING_ORDER_COST
  | .AWAITING_ORDER_DEADLINE | .AWAITING_COMPLETE_ORDER => .ORDERS_MENU
  | .AWAITING_INCOME_ORDER | .AWAITING_EXPENSE_COMMENT | .AWAITING_EXPENSE_COST =>
      .OPERATIONS_MENU
  | _ => .MAIN_MENU

/-- The menu text shown for each menu state. -/
def menuText : BotState → String
  | .CLIENTS_MENU => Msg.clientsMenu
  | .ORDERS_MENU => Msg.ordersMenu
  | .OPERATIONS_MENU => Msg.operationsMenu
  | _ => Msg.mainMenu

/-- Per-state field validation failure: the condition under which the
handler of that state takes its re-prompt branch (`ValueError` from
`float`/`int`/`strptime`, or a failed client lookup). `false` for states
whose handlers accept any text. -/
def fieldRejects (s : BotState) (t : String) (st : Store) : Bool :=
  match s with
  | .AWAITING_ORDER_CLIENT => (st.get_client_by_name t).isNone
  | .AWAITING_ORDER_COST => (parseFloat t).isNone
  | .AWAITING_ORDER_DEADLINE => (parseDate t).isNone
  | .AWAITING_EXPENSE_COST => (parseFloat t).isNone
  | .AWAITING_INCOME_ORDER => (parseInt t).isNone
  | .AWAITING_COMPLETE_ORDER => (parseInt t).isNone
  | _ => false

/-- The error re-prompt each fallible field emits. -/
def rejectMsg : BotState → String
  | .AWAITING_ORDER_CLIENT => "❌ Клиент не найден. Попробуйте еще раз:"
  | .AWAITING_ORDER_COST => "❌ Неверный формат стоимости. Введите число:"
  | .AWAITING_ORDER_DEADLINE => "❌ Неверный формат даты. Используйте ДД.ММ.ГГГГ:"
  | .AWAITING_EXPENSE_COST => "❌ Неверный формат суммы. Введите число:"
  | .AWAITING_INCOME_ORDER => "❌ Неверный формат ID. Введите число:"
  | .AWAITING_COMPLETE_ORDER => "❌ Неверный формат ID. Введите число:"
  | _ => ""

/-! Concrete fixtures for counterexamples and witnesses. -/

def acme : Client := ⟨1, "Acme Co", "+1-555-0100", ""⟩

def udOrderReady : UserData :=
  { order_name := some "Deal", order_client := some acme,
    order_cost := some (mkRat 100 1) }

def orderCompleted : Order := ⟨1, "Deal", acme, mkRat 100 1, ⟨2026, 10, 12⟩, .completed⟩

def storeCompleted : Store := ⟨[acme], [orderCompleted], [], 2, 2, 1⟩

def orderUnpaid : Order := ⟨1, "Deal", acme, mkRat 100 1, ⟨2026, 10, 12⟩, .unpaid⟩

def storeUnpaid : Store := ⟨[acme], [orderUnpaid], [], 2, 2, 1⟩

/-- `get_client_by_name` always resolves to the first match of the
default (insertion / primary key) order. -/
theorem get_client_by_name_eq_head (st : Store) (n : String) :
    st.get_client_by_name n = (st.clients.filter (fun c => c.name = n)).head? := by
  rcases hf : st.clients.filter (fun c => c.name = n) with _ | ⟨c, _ | ⟨d, tl⟩⟩ <;>
    simp [Store.get_client_by_name, hf]

/-! ## Claim C8 -/

/-- C8: sending the cancel-input in any state clears the collected
mapping and returns the conversation to the main menu (`Idle`), whichever
field was active and whether or not back-navigation is allowed there. -/
theorem cancel_clears_state_returns_main_menu (s : BotState) (ud : UserData) (st : Store) :
    cancel s ud st =
      .ok ⟨["Операция отменена.", Msg.mainMenu], .MAIN_MENU, UserData.empty, st⟩ :=
  rfl

/-! ## Claim C1 -/

/-- C1 counterexample: the input `"-5"` at the order-cost step is not
rejected — `float("-5")` succeeds and the form advances to the deadline
step with collected cost `-5`, contradicting the claimed `NonPositive`
rejection and re-prompt. -/
theorem order_cost_nonpositive_not_rejected :
    parseFloat "-5" = some (mkRat (-5) 1) ∧ mkRat (-5) 1 = (-5 : Rat) ∧
    mkRat (-5) 1 ≤ mkRat 0 1 ∧
    get_order_cost "-5" UserData.empty store0 =
      .ok ⟨["Выберите дату исполнения или введите свою (ДД.ММ.ГГГГ):"],
           .AWAITING_ORDER_DEADLINE,
           { UserData.empty with order_cost := some (mkRat (-5) 1) }, store0⟩ ∧
    BotState.AWAITING_ORDER_DEADLINE ≠ BotState.AWAITING_ORDER_COST := by
  refine ⟨by decide, by simp, by decide, by decide, by decide⟩

/-- C1 amended: for the amount fields (order cost, expense cost) an input
that does not parse as a decimal re-prompts the same step; but there is no
non-positivity check — every input that parses, whatever its sign, advances
(order cost) or commits (expense cost) with exactly the parsed value; in
particular `"150.50"` parses to 150.50 and `"-5"` parses to -5. -/
theorem amount_fields_no_nonpositive_check
    (t : String) (ud : UserData) (st : Store) (q : Rat) (dbOk : Bool) (cm : String) :
    (t ≠ ButtonText.BACK → parseFloat t = none →
      get_order_cost t ud st =
        .ok ⟨[rejectMsg .AWAITING_ORDER_COST], .AWAITING_ORDER_COST, ud, st⟩ ∧
      get_expense_cost dbOk t ud st =
        .ok ⟨[rejectMsg .AWAITING_EXPENSE_COST], .AWAITING_EXPENSE_COST, ud, st⟩) ∧
    (t ≠ ButtonText.BACK → parseFloat t = some q →
      get_order_cost t ud st =
        .ok ⟨["Выберите дату исполнения или введите свою (ДД.ММ.ГГГГ):"],
             .AWAITING_ORDER_DEADLINE, { ud with order_cost := some q }, st⟩) ∧
    (t ≠ ButtonText.BACK → parseFloat t = some q → ud.expense_comment = some cm →
      get_expense_cost dbOk t ud st =
        .ok ⟨[(if dbOk then "✅ Расход успешно добавлен!"
               else "❌ Ошибка при добавлении расхода."), Msg.operationsMenu],
             .OPERATIONS_MENU, UserData.empty, (st.create_expense dbOk cm q).2⟩) ∧
    parseFloat "150.50" = some (mkRat 301 2) ∧ mkRat 301 2 = (301 : Rat) / 2 ∧
    parseFloat "-5" = some (mkRat (-5) 1) := by
  refine ⟨fun h1 h2 => ⟨?_, ?_⟩, fun h1 h2 => ?_, fun h1 h2 h3 => ?_,
    by decide, by rw [Rat.mkRat_eq_divInt, Rat.divInt_eq_div]; norm_num, by decide⟩
  · simp only [get_order_cost, rejectMsg]
    rw [if_neg h1, h2]
  · simp only [get_expense_cost, rejectMsg]
    rw [if_neg h1, h2]
  · simp only [get_order_cost]
    rw [if_neg h1, h2]
  · simp only [get_expense_cost]
    rw [if_neg h1, h2, h3]
    cases dbOk <;> simp [Store.create_expense]

/-- C1 witness: the two hypothesised branches of the amended theorem at
concrete inputs `"-5"` (parses negative, advances) and `"abc"` (fails to
parse, re-prompts). -/
theorem amount_fields_no_nonpositive_check_witness :
    get_order_cost "-5" UserData.empty store0 =
      .ok ⟨["Выберите дату исполнения или введите свою (ДД.ММ.ГГГГ):"],
           .AWAITING_ORDER_DEADLINE,
           { UserData.empty with order_cost := some (mkRat (-5) 1) }, store0⟩ ∧
    get_order_cost "abc" UserData.empty store0 =
      .ok ⟨[rejectMsg .AWAITING_ORDER_COST], .AWAITING_ORDER_COST,
           UserData.empty, store0⟩ :=
  ⟨(amount_fields_no_nonpositive_check "-5" UserData.empty store0 (mkRat (-5) 1) true "x").2.1
      (by decide) (by decide),
   ((amount_fields_no_nonpositive_check "abc" UserData.empty store0 0 true "x").1
      (by decide) (by decide)).1⟩

/-! ## Claim C2 -/

/-- C2 counterexample: the back-input at the second client field
(`AwaitingField(1)`, contacts) moves to the clients menu, not back to the
name field; likewise the back-input at the order-cost field moves to the
orders menu, not back to the order-client field.  The collected values
are retained, but the target state contradicts the claimed
`AwaitingField(i-1)`. -/
theorem back_at_field_one_not_previous_field :
    runTurn true .AWAITING_CLIENT_CONTACTS ButtonText.BACK
        { client_name := some "Acme Co" } store0 =
      some (.ok ⟨[Msg.clientsMenu], .CLIENTS_MENU,
                 { client_name := some "Acme Co" }, store0⟩) ∧
    BotState.CLIENTS_MENU ≠ BotState.AWAITING_CLIENT_NAME ∧
    runTurn true .AWAITING_ORDER_COST ButtonText.BACK udOrderReady store0 =
      some (.ok ⟨[Msg.ordersMenu], .ORDERS_MENU, udOrderReady, store0⟩) ∧
    BotState.ORDERS_MENU ≠ BotState.AWAITING_ORDER_CLIENT := by
  refine ⟨by decide, by decide, by decide, by decide⟩

/-- C2 amended: sending the back-input while awaiting any form field
transitions to that form's parent menu (never to the previous field) and
leaves the collected mapping and the store untouched, so the values of the
earlier fields are all retained and nothing is discarded. -/
theorem back_returns_to_parent_menu (dbOk : Bool) (s : BotState)
    (ud : UserData) (st : Store) (h : isAwaitingField s = true) :
    runTurn dbOk s ButtonText.BACK ud st =
      some (.ok ⟨[menuText (parentMenu s)], parentMenu s, ud, st⟩) := by
  cases s <;> first
    | rfl
    | exact absurd h (by decide)

/-- C2 witness: the amended back-navigation theorem at the concrete
client-contacts field. -/
theorem back_returns_to_parent_menu_witness :
    runTurn true .AWAITING_CLIENT_CONTACTS ButtonText.BACK UserData.empty store0 =
      some (.ok ⟨[menuText (parentMenu .AWAITING_CLIENT_CONTACTS)],
                 parentMenu .AWAITING_CLIENT_CONTACTS, UserData.empty, store0⟩) :=
  back_returns_to_parent_menu true .AWAITING_CLIENT_CONTACTS UserData.empty store0
    (by decide)

/-! ## Claim C3 -/

/-- C3 counterexample: with the current date 12.10.2026, the deadline
input `"11.10.2026"` parses to the strictly earlier date 11.10.2026 and is
nevertheless accepted — `get_order_deadline` creates the order and leaves
the form — contradicting the claimed `PastDate` rejection. -/
theorem deadline_yesterday_not_rejected :
    parseDate "11.10.2026" = some ⟨2026, 10, 11⟩ ∧
    Date.isBefore ⟨2026, 10, 11⟩ ⟨2026, 10, 12⟩ = true ∧
    get_order_deadline true "11.10.2026" udOrderReady store0 =
      .ok ⟨["✅ Сделка успешно создана!", Msg.ordersMenu], .ORDERS_MENU,
           UserData.empty,
           ⟨[], [⟨1, "Deal", acme, mkRat 100 1, ⟨2026, 10, 11⟩, .unpaid⟩], [],
            1, 2, 1⟩⟩ ∧
    BotState.ORDERS_MENU ≠ BotState.AWAITING_ORDER_DEADLINE := by
  refine ⟨by decide, by decide, by decide, by decide⟩

/-- C3 amended: an order-deadline input that does not parse in the
`ДД.ММ.ГГГГ` format re-prompts the same step; but every input that parses
as a valid calendar date is accepted and the form commits, regardless of
how the date compares with the current date (today's date in particular is
accepted; so is any past date — the source never compares against today). -/
theorem deadline_no_pastdate_check (dbOk : Bool) (t : String) (ud : UserData)
    (st : Store) (d : Date) (nm : String) (cl : Client) (cq : Rat) :
    (t ≠ ButtonText.BACK → parseDate t = none →
      get_order_deadline dbOk t ud st =
        .ok ⟨[rejectMsg .AWAITING_ORDER_DEADLINE], .AWAITING_ORDER_DEADLINE, ud, st⟩) ∧
    (t ≠ ButtonText.BACK → parseDate t = some d →
      ud.order_name = some nm → ud.order_client = some cl → ud.order_cost = some cq →
      get_order_deadline dbOk t ud st =
        .ok ⟨[(if dbOk then "✅ Сделка успешно создана!"
               else "❌ Ошибка при создании сделки."), Msg.ordersMenu],
             .ORDERS_MENU, UserData.empty, (st.create_order dbOk nm cl cq d).2⟩) := by
  constructor
  · intro h1 h2
    simp only [get_order_deadline, rejectMsg]
    rw [if_neg h1, h2]
  · intro h1 h2 h3 h4 h5
    simp only [get_order_deadline]
    rw [if_neg h1, h2, h3, h4, h5]
    cases dbOk <;> simp [Store.create_order]

/-- C3 witness: the amended theorem at today's date `"12.10.2026"`
(accepted, commits) and at the malformed input `"12/10/2026"`
(re-prompts). -/
theorem deadline_no_pastdate_check_witness :
    get_order_deadline true "12.10.2026" udOrderReady store0 =
      .ok ⟨["✅ Сделка успешно создана!", Msg.ordersMenu], .ORDERS_MENU,
           UserData.empty,
           (store0.create_order true "Deal" acme (mkRat 100 1) ⟨2026, 10, 12⟩).2⟩ ∧
    get_order_deadline true "12/10/2026" udOrderReady store0 =
      .ok ⟨[rejectMsg .AWAITING_ORDER_DEADLINE], .AWAITING_ORDER_DEADLINE,
           udOrderReady, store0⟩ :=
  ⟨(deadline_no_pastdate_check true "12.10.2026" udOrderReady store0
      ⟨2026, 10, 12⟩ "Deal" acme (mkRat 100 1)).2
      (by decide) (by decide) (by decide) (by decide) (by decide),
   (deadline_no_pastdate_check true "12/10/2026" udOrderReady store0
      ⟨2026, 10, 12⟩ "Deal" acme (mkRat 100 1)).1
      (by decide) (by decide)⟩

/-! ## Claim C5 -/

/-- C5 counterexample: the back-input at the first client field does
return to the parent menu, but the collected mapping is not cleared: after
starting the client form, entering a name, backing out of the contacts
field, and re-entering the form, the session sits at the first field with
`client_name` still collected; the back-input there keeps that stale value,
so the state after backing out is not the empty mapping. -/
theorem back_at_first_field_stale_collected :
    runInputs true
        [ButtonText.ADD_CLIENT, "Acme Co", ButtonText.BACK, ButtonText.ADD_CLIENT]
        (.CLIENTS_MENU, UserData.empty, store0) =
      some (.AWAITING_CLIENT_NAME, { client_name := some "Acme Co" }, store0) ∧
    runInputs true
        [ButtonText.ADD_CLIENT, "Acme Co", ButtonText.BACK, ButtonText.ADD_CLIENT,
         ButtonText.BACK]
        (.CLIENTS_MENU, UserData.empty, store0) =
      some (.CLIENTS_MENU, { client_name := some "Acme Co" }, store0) ∧
    ({ client_name := some "Acme Co" } : UserData) ≠ UserData.empty := by
  refine ⟨by decide, by decide, by decide⟩

/-- C5 amended: the back-input at the first field of each form returns to
the parent menu and leaves the collected mapping exactly as it was — the
handlers never clear it, so it is empty after backing out only when it was
already empty when the field was shown. -/
theorem back_at_first_field_keeps_collected (ud : UserData) (st : Store) :
    get_client_name ButtonText.BACK ud st =
      .ok ⟨[Msg.clientsMenu], .CLIENTS_MENU, ud, st⟩ ∧
    get_order_name ButtonText.BACK ud st =
      .ok ⟨[Msg.ordersMenu], .ORDERS_MENU, ud, st⟩ ∧
    get_expense_comment ButtonText.BACK ud st =
      .ok ⟨[Msg.operationsMenu], .OPERATIONS_MENU, ud, st⟩ :=
  ⟨rfl, rfl, rfl⟩

/-! ## Claim C4 -/

/-- C4 counterexample: the skip-token of the client form is
`"пропустить"`, not `"skip"` — driving the form with `"Acme Co"`,
`"+1-555-0100"`, `"skip"` commits a client whose notes are the literal
string `"skip"`, not the empty string claimed. -/
theorem client_form_literal_skip_stores_skip :
    runInputs true ["Acme Co", "+1-555-0100", "skip"]
        (.AWAITING_CLIENT_NAME, UserData.empty, store0) =
      some (.CLIENTS_MENU, UserData.empty,
            ⟨[⟨1, "Acme Co", "+1-555-0100", "skip"⟩], [], [], 2, 1, 1⟩) ∧
    "skip" ≠ "" := by
  refine ⟨by decide, by decide⟩

/-- C4 amended: the skip-token is `"пропустить"` (matched
case-insensitively).  Driving the client form with `"Acme Co"`,
`"+1-555-0100"` and the skip-token — in lower case or capitalised —
produces exactly one commit: one client record is appended, with name
`"Acme Co"`, contacts `"+1-555-0100"` and empty notes, and the
conversation returns to the clients menu with the collected mapping
cleared. -/
theorem client_form_skip_token_commits_empty_notes (st : Store) :
    runInputs true ["Acme Co", "+1-555-0100", "пропустить"]
        (.AWAITING_CLIENT_NAME, UserData.empty, st) =
      some (.CLIENTS_MENU, UserData.empty,
            { st with
                clients := st.clients ++ [⟨st.nextClientId, "Acme Co", "+1-555-0100", ""⟩],
                nextClientId := st.nextClientId + 1 }) ∧
    runInputs true ["Acme Co", "+1-555-0100", "Пропустить"]
        (.AWAITING_CLIENT_NAME, UserData.empty, st) =
      some (.CLIENTS_MENU, UserData.empty,
            { st with
                clients := st.clients ++ [⟨st.nextClientId, "Acme Co", "+1-555-0100", ""⟩],
                nextClientId := st.nextClientId + 1 }) :=
  ⟨rfl, rfl⟩

/-! ## Claim C6 -/

/-- C6 counterexample: statuses can move backward and can skip `paid`.
On a store whose only order is `completed`, entering its id in the income
flow sets the status back to `paid`; on a store whose only order is
`unpaid`, entering its id in the complete flow sets it straight to
`completed`. -/
theorem order_status_backward_transition :
    orderCompleted.status = .completed ∧
    process_income "1" UserData.empty storeCompleted =
      .ok ⟨["✅ Оплата учтена! Сделка 'Deal' (Acme Co) перемещена в оплаченные.",
            Msg.operationsMenu], .OPERATIONS_MENU, UserData.empty,
           { storeCompleted with orders := [{ orderCompleted with status := .paid }] }⟩ ∧
    orderUnpaid.status = .unpaid ∧
    process_complete_order "1" UserData.empty storeUnpaid =
      .ok ⟨["✅ Сделка 'Deal' (Acme Co) успешно завершена и перемещена в архив.",
            Msg.ordersMenu], .ORDERS_MENU, UserData.empty,
           { storeUnpaid with orders := [{ orderUnpaid with status := .completed }] }⟩ := by
  refine ⟨by decide, by decide, by decide, by decide⟩

/-- C6 amended: an order's status always ranges over
{unpaid, paid, completed} (the `OrderStatus` type), but the transitions are
not restricted: `update_order_status` overwrites the status of any
existing order unconditionally, so the income flow sets any order to
`paid` and the complete flow sets any order to `completed`, whatever the
current status — backward moves (`completed → paid`) and skips
(`unpaid → completed`) are reachable. -/
theorem order_status_set_unconditionally (st : Store) (t : String) (oid : Int)
    (o : Order) (ud : UserData) (h1 : t ≠ ButtonText.BACK)
    (h2 : parseInt t = some oid)
    (h3 : st.orders.find? (fun x => (x.id : Int) = oid) = some o) :
    process_income t ud st =
      .ok ⟨["✅ Оплата учтена! Сделка '" ++ o.name ++ "' (" ++ o.client.name ++
            ") перемещена в оплаченные.", Msg.operationsMenu],
           .OPERATIONS_MENU, ud,
           { st with orders := (st.orders.map (fun x =>
               if (x.id : Int) = oid then { o with status := .paid } else x)) }⟩ ∧
    process_complete_order t ud st =
      .ok ⟨["✅ Сделка '" ++ o.name ++ "' (" ++ o.client.name ++
            ") успешно завершена и перемещена в архив.", Msg.ordersMenu],
           .ORDERS_MENU, ud,
           { st with orders := (st.orders.map (fun x =>
               if (x.id : Int) = oid then { o with status := .completed } else x)) }⟩ := by
  constructor
  · simp only [process_income, Store.update_order_status]
    rw [if_neg h1, h2]
    simp only [h3]
  · simp only [process_complete_order, Store.update_order_status]
    rw [if_neg h1, h2]
    simp only [h3]

/-- C6 witness: the unconditional-overwrite theorem applied to the
completed order of `storeCompleted`. -/
theorem order_status_set_unconditionally_witness :
    process_income "1" UserData.empty storeCompleted =
      .ok ⟨["✅ Оплата учтена! Сделка '" ++ orderCompleted.name ++ "' (" ++
            orderCompleted.client.name ++ ") перемещена в оплаченные.",
            Msg.operationsMenu], .OPERATIONS_MENU, UserData.empty,
           { storeCompleted with orders := (storeCompleted.orders.map (fun x =>
               if (x.id : Int) = (1 : Int)
               then { orderCompleted with status := .paid } else x)) }⟩ :=
  (order_status_set_unconditionally storeCompleted "1" 1 orderCompleted
    UserData.empty (by decide) (by decide) (by decide)).1

/-! ## Claim C7 -/

/-- C7: at every form field, an input that fails the field's validation
(unparsable number/id/date, or an unknown client name) leaves the
conversation exactly where it was — same state, same collected mapping,
same store — and re-emits that field's error re-prompt. -/
theorem invalid_input_preserves_state (dbOk : Bool) (s : BotState) (t : String)
    (ud : UserData) (st : Store) (h1 : t ≠ ButtonText.BACK)
    (h2 : fieldRejects s t st = true) :
    runTurn dbOk s t ud st = some (.ok ⟨[rejectMsg s], s, ud, st⟩) := by
  cases s <;> simp only [fieldRejects, Option.isNone_iff_eq_none] at h2 <;>
    first
      | exact absurd h2 (by decide)
      | (simp only [runTurn, get_order_client, get_order_cost, get_order_deadline,
                    get_expense_cost, process_income, process_complete_order,
                    rejectMsg]
         rw [if_neg h1, h2])

/-- C7 witness: the preservation theorem at the order-cost field with the
unparsable input `"abc"`. -/
theorem invalid_input_preserves_state_witness :
    runTurn true .AWAITING_ORDER_COST "abc" udOrderReady store0 =
      some (.ok ⟨[rejectMsg .AWAITING_ORDER_COST], .AWAITING_ORDER_COST,
                 udOrderReady, store0⟩) :=
  invalid_input_preserves_state true .AWAITING_ORDER_COST "abc" udOrderReady
    store0 (by decide) (by decide)

/-! ## Claim C9 -/

/-- C9: when the final field of a form validates, the commit is invoked
and the conversation is reset on both outcomes — the collected mapping is
cleared and the state returns to the parent menu whether the commit
succeeds (success reported) or the database call fails (failure reported,
no retry of the same form instance). -/
theorem final_field_commit_clears_state (dbOk : Bool) :
    (∀ t ud st nm ct, t ≠ ButtonText.BACK →
      ud.client_name = some nm → ud.client_contacts = some ct →
      get_client_notes t ud st =
        .ok ⟨["✅ Клиент успешно добавлен!", Msg.clientsMenu], .CLIENTS_MENU,
             UserData.empty,
             (st.create_client nm ct
               (if pyLower t ≠ ButtonText.SKIP then t else "")).2⟩) ∧
    (∀ t ud st d nm cl cq, t ≠ ButtonText.BACK → parseDate t = some d →
      ud.order_name = some nm → ud.order_client = some cl → ud.order_cost = some cq →
      get_order_deadline dbOk t ud st =
        .ok ⟨[(if dbOk then "✅ Сделка успешно создана!"
               else "❌ Ошибка при создании сделки."), Msg.ordersMenu],
             .ORDERS_MENU, UserData.empty, (st.create_order dbOk nm cl cq d).2⟩) ∧
    (∀ t ud st q cm, t ≠ ButtonText.BACK → parseFloat t = some q →
      ud.expense_comment = some cm →
      get_expense_cost dbOk t ud st =
        .ok ⟨[(if dbOk then "✅ Расход успешно добавлен!"
               else "❌ Ошибка при добавлении расхода."), Msg.operationsMenu],
             .OPERATIONS_MENU, UserData.empty, (st.create_expense dbOk cm q).2⟩) := by
  refine ⟨?_, ?_, ?_⟩
  · intro t ud st nm ct h1 h2 h3
    simp only [get_client_notes]
    rw [if_neg h1]
    by_cases hskip : pyLower t = ButtonText.SKIP
    · rw [if_neg (not_not_intro hskip)]
      simp [h2, h3, Store.create_client, if_neg (not_not_intro hskip)]
    · rw [if_pos hskip]
      simp [h2, h3, Store.create_client, if_pos hskip]
  · intro t ud st d nm cl cq h1 h2 h3 h4 h5
    simp only [get_order_deadline]
    rw [if_neg h1, h2, h3, h4, h5]
    cases dbOk <;> simp [Store.create_order]
  · intro t ud st q cm h1 h2 h3
    simp only [get_expense_cost]
    rw [if_neg h1, h2, h3]
    cases dbOk <;> simp [Store.create_expense]

/-- C9 witness: the reset theorem at the client form's final field (commit
succeeds) and at the order form's final field with the database call
failing (state cleared anyway, failure reported). -/
theorem final_field_commit_clears_state_witness :
    get_client_notes "пропустить"
        { client_name := some "Acme Co", client_contacts := some "+1-555-0100" }
        store0 =
      .ok ⟨["✅ Клиент успешно добавлен!", Msg.clientsMenu], .CLIENTS_MENU,
           UserData.empty,
           (store0.create_client "Acme Co" "+1-555-0100" "").2⟩ ∧
    get_order_deadline false "12.10.2026" udOrderReady store0 =
      .ok ⟨["❌ Ошибка при создании сделки.", Msg.ordersMenu], .ORDERS_MENU,
           UserData.empty, store0⟩ :=
  ⟨(final_field_commit_clears_state true).1 "пропустить"
      { client_name := some "Acme Co", client_contacts := some "+1-555-0100" }
      store0 "Acme Co" "+1-555-0100" (by decide) rfl rfl,
   (final_field_commit_clears_state false).2.1 "12.10.2026" udOrderReady store0
      ⟨2026, 10, 12⟩ "Deal" acme (mkRat 100 1) (by decide) (by decide) rfl rfl rfl⟩

/-! ## Claim C10 -/

/-- C10: client names are not unique — creating a client whose name is
already borne by an existing record always succeeds (the duplicate-name
error branch of `create_client` cannot fire, since `Client.name` has no
uniqueness constraint) and appends a second record, and a subsequent
lookup by that name resolves to the first matching record in default
(primary-key) order instead of failing. -/
theorem duplicate_client_names_allowed (st : Store) (n ct nt : String)
    (c0 : Client) (h1 : c0 ∈ st.clients) (h2 : c0.name = n) :
    ((st.create_client n ct nt).1.isSome = true) ∧
    (st.create_client n ct nt).2.clients =
      st.clients ++ [⟨st.nextClientId, n, ct, nt⟩] ∧
    (st.create_client n ct nt).2.get_client_by_name n =
      (st.clients.filter (fun c => c.name = n)).head? ∧
    ((st.clients.filter (fun c => c.name = n)).head?).isSome = true := by
  have hmem : c0 ∈ st.clients.filter (fun c => c.name = n) :=
    List.mem_filter.2 ⟨h1, by simp [h2]⟩
  rcases hf : st.clients.filter (fun c => c.name = n) with _ | ⟨a, tl⟩
  · rw [hf] at hmem
    cases hmem
  · refine ⟨rfl, rfl, ?_, ?_⟩
    · rw [get_client_by_name_eq_head]
      show ((st.clients ++ [(⟨st.nextClientId, n, ct, nt⟩ : Client)]).filter
              (fun c : Client => c.name = n)).head? = _
      rw [List.filter_append, hf]
      rfl
    · rw [hf]
      rfl

/-- C10 witness: a second `"Acme Co"` next to the one already in
`storeCompleted`. -/
theorem duplicate_client_names_allowed_witness :
    ((storeCompleted.create_client "Acme Co" "+7-900" "").1.isSome = true) ∧
    (storeCompleted.create_client "Acme Co" "+7-900" "").2.clients =
      storeCompleted.clients ++ [⟨storeCompleted.nextClientId, "Acme Co", "+7-900", ""⟩] ∧
    (storeCompleted.create_client "Acme Co" "+7-900" "").2.get_client_by_name "Acme Co" =
      (storeCompleted.clients.filter (fun c => c.name = "Acme Co")).head? ∧
    ((storeCompleted.clients.filter (fun c => c.name = "Acme Co")).head?).isSome = true :=
  duplicate_client_names_allowed storeCompleted "Acme Co" "+7-900" "" acme
    (by decide) (by decide)

end CRMBot
